import Mathlib

/-!
Verification of the Mira Soak Station configuration flow (`config_flow.py`)
against its natural-language specification.

The embedding below translates the body of
`SoakStationConfigFlow.async_step_user` and `show_selection_form` into pure
Lean functions.  Scan results are `ScanDevice` records; the Python `dict`
built by the candidate loop is an association list with Python-dict
assignment semantics (`dictInsert`); the outcome of the single
`config_flow_pairing` await is passed in as an `Except` value (the flow
catches every exception, so the exception type is an arbitrary `Type`).
-/

/-- A BLE scan result: an address and an optional advertised name
(`device.name` may be `None` in the source). -/
structure ScanDevice where
  address : String
  name : Option String
deriving DecidableEq, Repr

/-- `leadsWith needle hay` is true when `needle` is an initial segment of
`hay` (over character lists). -/
def leadsWith : List Char → List Char → Bool
  | [], _ => true
  | _ :: _, [] => false
  | a :: as, b :: bs => a == b && leadsWith as bs

/-- `subLst needle hay` is true when `needle` occurs contiguously inside
`hay`; this is the character-list version of the Python `in` operator on
strings. -/
def subLst (needle : List Char) : List Char → Bool
  | [] => needle.isEmpty
  | h :: t => leadsWith needle (h :: t) || subLst needle t

/-- `containsSub needle haystack`: Python `needle in haystack` for strings. -/
def containsSub (needle haystack : String) : Bool :=
  subLst needle.data haystack.data

/-- `name = device.name or "Unknown"` (line 55): Python `or` substitutes
`"Unknown"` when the advertised name is `None` or the empty string (both are
falsy). -/
def effName (d : ScanDevice) : String :=
  match d.name with
  | none => "Unknown"
  | some s => if s = "" then "Unknown" else s

/-- The candidate test of line 56: `"Mira" in name`. -/
def candMatch (d : ScanDevice) : Bool :=
  containsSub "Mira" (effName d)

/-- Python dict assignment `m[k] = v` on an association list: if the key is
present its value is replaced in place, otherwise the pair is appended. -/
def dictInsert (m : List (String × String)) (k v : String) :
    List (String × String) :=
  if m.any (fun p => p.1 == k) then
    m.map (fun p => if p.1 == k then (k, v) else p)
  else m ++ [(k, v)]

/-- Python dict lookup `m[k]`, `none` when the key is absent. -/
def lookupDict (m : List (String × String)) (k : String) : Option String :=
  (m.find? (fun p => p.1 == k)).map Prod.snd

/-- One iteration of the candidate-building loop of lines 54-58. -/
def stepDevice (m : List (String × String)) (d : ScanDevice) :
    List (String × String) :=
  if candMatch d then dictInsert m d.address (effName d) else m

/-- The discovery filter: the whole loop of lines 54-58, producing the
`mira_devices` mapping from a scan result sequence. -/
def filterCandidates (scan : List ScanDevice) : List (String × String) :=
  scan.foldl stepDevice []

/-- The data of the configuration entry created on line 85: exactly the four
fields of the dict literal on lines 87-92. -/
structure EntryData where
  device_name : String
  device_address : String
  client_id : String
  client_slot : Nat
deriving DecidableEq, Repr

/-- The flow state relevant to `async_step_user`: the `self._device_options`
attribute set on line 65 and read on line 70. -/
structure FlowState where
  deviceOptions : List (String × String)
deriving DecidableEq, Repr

/-- The `FlowResult` values the step can return: `async_abort` (line 62),
`async_show_form` via `show_selection_form` (lines 66, 81, 106), and
`async_create_entry` (line 85). -/
inductive FlowResult where
  | abort (reason : String)
  | showForm (stepId : String) (options : List (String × String))
      (errors : List (String × String))
  | createEntry (title : String) (data : EntryData)
deriving DecidableEq, Repr

/-- The outcome of one invocation of `async_step_user`: the new flow state
with the returned `FlowResult`, or the uncaught `KeyError` raised by the
lookup `self._device_options[device_address]` on line 70 when the address
was never discovered. -/
inductive StepOutcome where
  | done (st : FlowState) (result : FlowResult)
  | keyError (key : String)
deriving DecidableEq, Repr

/-- `show_selection_form` (lines 95-112): a form for step `"user"` whose
schema offers `mira_devices` as the options of the required device field. -/
def show_selection_form (errors : List (String × String))
    (mira_devices : List (String × String)) : FlowResult :=
  FlowResult.showForm "user" mira_devices errors

/-- `async_step_user` (lines 30-93).  `user_input` is the selected address
when present.  `scan` is the sequence `scanner.discover` returns on line 50
(only read in the discovery branch).  `pairing` is the outcome of the single
`config_flow_pairing` await on line 76 (only read in the selection branch):
`Except.ok` carries the returned `(client_id, client_slot)` pair and
`Except.error` carries a raised exception of arbitrary type `ε`, since
line 78 catches every `Exception`.  The local `mira_devices` dict starts
empty on line 44 and is only populated in the discovery branch. -/
def async_step_user {ε : Type} (st : FlowState) (scan : List ScanDevice)
    (user_input : Option String) (pairing : Except ε (String × Nat)) :
    StepOutcome :=
  match user_input with
  | none =>
    let mira_devices := filterCandidates scan
    if mira_devices.isEmpty then
      StepOutcome.done st (FlowResult.abort "no_devices_found")
    else
      StepOutcome.done { deviceOptions := mira_devices }
        (show_selection_form [] mira_devices)
  | some device_address =>
    match lookupDict st.deviceOptions device_address with
    | none => StepOutcome.keyError device_address
    | some device_name =>
      match pairing with
      | Except.error _ =>
        StepOutcome.done st
          (show_selection_form [("base", "pairing_failed")] [])
      | Except.ok (client_id, client_slot) =>
        StepOutcome.done st
          (FlowResult.createEntry device_name
            { device_name := device_name
              device_address := device_address
              client_id := client_id
              client_slot := client_slot })

/-- The failure taxonomy of the pairing Orchestrator, as far as the in-flight
invariant needs it. -/
inductive PairingError where
  | PairingInProgress
  | otherFailure (reason : String)
deriving DecidableEq, Repr

/-- Modelled from the spec: the coarse in-flight address set of the Pairing
Orchestrator (the `pair` entry point lives in `mira.config_helper`, which is
not part of the excerpt).  Spec sections 4.4 and 5: the Orchestrator keeps
the set of addresses with an in-flight pairing session. -/
structure OrchestratorState where
  inflight : List String
deriving DecidableEq, Repr

/-- Modelled from the spec: the admission step of `pair(address)`.  Spec
section 4.4: a `pair` call for an address with an in-flight session is
rejected with `PairingInProgress` rather than queued; otherwise the address
is recorded in-flight and a Transport Session is opened for it. -/
def pairBegin (s : OrchestratorState) (addr : String) :
    OrchestratorState × Except PairingError Unit :=
  if s.inflight.contains addr then
    (s, Except.error PairingError.PairingInProgress)
  else
    ({ inflight := addr :: s.inflight }, Except.ok ())

/-- The effective name of the last entry of `scan` that passes the candidate
test and carries address `a`; `none` when no such entry exists.  This is the
specification-side description of what the loop of lines 54-58 stores for
key `a`. -/
def lastMatchName (scan : List ScanDevice) (a : String) : Option String :=
  (scan.reverse.find? (fun d => candMatch d && d.address == a)).map effName

theorem dictInsert_mem (m : List (String × String)) (k v a n : String) :
    (a, n) ∈ dictInsert m k v ↔ (a = k ∧ n = v) ∨ ((a, n) ∈ m ∧ a ≠ k) := by
  by_cases h : m.any (fun p => p.1 == k) = true
  · rw [dictInsert, if_pos h]
    rw [List.any_eq_true] at h
    obtain ⟨q, hq, hqk⟩ := h
    rw [beq_iff_eq] at hqk
    simp only [List.mem_map]
    constructor
    · rintro ⟨p, hp, hfp⟩
      by_cases hk : p.1 = k
      · simp only [hk, beq_self_eq_true, if_true] at hfp
        left
        exact ⟨(Prod.mk.injEq _ _ _ _ ▸ hfp).1.symm ▸ rfl, (Prod.ext_iff.mp hfp).2.symm⟩
      · simp only [beq_iff_eq, hk, if_false] at hfp
        right
        subst hfp
        exact ⟨hp, hk⟩
    · rintro (⟨ha, hn⟩ | ⟨hmem, hne⟩)
      · subst ha; subst hn
        exact ⟨q, hq, by simp [hqk]⟩
      · exact ⟨(a, n), hmem, by simp [hne]⟩
  · rw [dictInsert, if_neg h]
    simp only [List.any_eq_true, beq_iff_eq, not_exists, not_and] at h
    simp only [List.mem_append, List.mem_singleton, Prod.mk.injEq]
    constructor
    · rintro (hmem | ⟨ha, hn⟩)
      · exact Or.inr ⟨hmem, fun hak => h _ hmem hak⟩
      · exact Or.inl ⟨ha, hn⟩
    · rintro (⟨ha, hn⟩ | ⟨hmem, _⟩)
      · exact Or.inr ⟨ha, hn⟩
      · exact Or.inl hmem

theorem dictInsert_keys_nodup (m : List (String × String)) (k v : String)
    (h : (m.map Prod.fst).Nodup) :
    ((dictInsert m k v).map Prod.fst).Nodup := by
  by_cases hk : m.any (fun p => p.1 == k) = true
  · rw [dictInsert, if_pos hk, List.map_map]
    have : ∀ p ∈ m,
        (Prod.fst ∘ fun p => if p.1 == k then (k, v) else p) p = Prod.fst p := by
      intro p _
      by_cases hpk : p.1 = k
      · simp [hpk]
      · simp [hpk]
    rw [List.map_congr_left this]
    exact h
  · rw [dictInsert, if_neg hk, List.map_append]
    simp only [List.any_eq_true, beq_iff_eq, not_exists, not_and] at hk
    simp only [List.nodup_append, List.map_cons, List.map_nil]
    refine ⟨h, List.nodup_singleton k, ?_⟩
    intro x hx hx'
    simp only [List.mem_singleton] at hx'
    subst hx'
    obtain ⟨p, hp, hpk⟩ := List.mem_map.mp hx
    exact hk p hp hpk

theorem filterCandidates_concat (l : List ScanDevice) (d : ScanDevice) :
    filterCandidates (l ++ [d]) = stepDevice (filterCandidates l) d := by
  simp [filterCandidates, List.foldl_append]

theorem filterCandidates_keys_nodup (scan : List ScanDevice) :
    ((filterCandidates scan).map Prod.fst).Nodup := by
  suffices h : ∀ (l : List ScanDevice) (m : List (String × String)),
      (m.map Prod.fst).Nodup → ((l.foldl stepDevice m).map Prod.fst).Nodup by
    exact h scan [] (by simp)
  intro l
  induction l with
  | nil => intro m hm; exact hm
  | cons d l ih =>
    intro m hm
    rw [List.foldl_cons]
    refine ih _ ?_
    rw [stepDevice]
    by_cases hc : candMatch d = true
    · rw [if_pos hc]; exact dictInsert_keys_nodup _ _ _ hm
    · rw [if_neg hc]; exact hm

theorem mem_filterCandidates (scan : List ScanDevice) (a n : String) :
    (a, n) ∈ filterCandidates scan ↔ lastMatchName scan a = some n := by
  induction scan using List.reverseRecOn with
  | nil => simp [filterCandidates, lastMatchName]
  | append_singleton l d ih =>
    rw [filterCandidates_concat, stepDevice]
    by_cases hm : candMatch d = true
    · rw [if_pos hm]
      rw [dictInsert_mem]
      by_cases ha : d.address = a
      · have hlast : lastMatchName (l ++ [d]) a = some (effName d) := by
          simp [lastMatchName, List.reverse_append, List.find?_cons_of_pos, hm, ha]
        rw [hlast]
        constructor
        · rintro (⟨_, hnv⟩ | ⟨_, hne⟩)
          · simp [hnv]
          · exact absurd ha.symm hne
        · intro h
          injection h with h
          exact Or.inl ⟨ha.symm, h.symm⟩
      · have hlast : lastMatchName (l ++ [d]) a = lastMatchName l a := by
          simp only [lastMatchName, List.reverse_append, List.reverse_singleton,
            List.singleton_append]
          rw [List.find?_cons_of_neg]
          simp [hm, ha]
        rw [hlast, ← ih]
        constructor
        · rintro (⟨hak, _⟩ | ⟨hmem, _⟩)
          · exact absurd hak.symm ha
          · exact hmem
        · intro h
          exact Or.inr ⟨h, fun hak => ha hak.symm⟩
    · rw [if_neg hm]
      have hlast : lastMatchName (l ++ [d]) a = lastMatchName l a := by
        simp only [lastMatchName, List.reverse_append, List.reverse_singleton,
          List.singleton_append]
        rw [List.find?_cons_of_neg]
        simp [hm]
      rw [hlast, ← ih]

theorem lookupDict_eq_some_of_mem (m : List (String × String)) (a n : String)
    (hnd : (m.map Prod.fst).Nodup) (hm : (a, n) ∈ m) :
    lookupDict m a = some n := by
  induction m with
  | nil => cases hm
  | cons p m ih =>
    simp only [List.map_cons, List.nodup_cons] at hnd
    rcases List.mem_cons.mp hm with h | h
    · subst h
      simp [lookupDict, List.find?]
    · have hpa : (p.1 == a) = false := by
        rw [beq_eq_false_iff_ne]
        intro hpa
        exact hnd.1 (List.mem_map.mpr ⟨(a, n), h, hpa.symm⟩)
      rw [lookupDict]
      simp only [List.find?, hpa]
      exact ih hnd.2 h

theorem lookupDict_eq_none (m : List (String × String)) (a : String)
    (h : ∀ n, (a, n) ∉ m) : lookupDict m a = none := by
  rw [lookupDict, List.find?_eq_none.mpr]
  · rfl
  · intro q hq hqa
    rw [beq_iff_eq] at hqa
    exact h q.2 (by rw [← hqa]; exact hq)

theorem lookupDict_filterCandidates (scan : List ScanDevice) (a : String) :
    lookupDict (filterCandidates scan) a = lastMatchName scan a := by
  cases hl : lastMatchName scan a with
  | some n =>
    exact lookupDict_eq_some_of_mem _ _ _ (filterCandidates_keys_nodup scan)
      ((mem_filterCandidates scan a n).mpr hl)
  | none =>
    refine lookupDict_eq_none _ _ (fun n hn => ?_)
    rw [mem_filterCandidates scan a n, hl] at hn
    cases hn

theorem mem_filterCandidates_matches (scan : List ScanDevice) (a n : String)
    (h : (a, n) ∈ filterCandidates scan) : containsSub "Mira" n = true := by
  rw [mem_filterCandidates] at h
  rw [lastMatchName] at h
  cases hf : scan.reverse.find? (fun d => candMatch d && d.address == a) with
  | none => rw [hf] at h; cases h
  | some e =>
    rw [hf, Option.map_some'] at h
    injection h with h
    have hpred := List.find?_some hf
    simp only [Bool.and_eq_true, beq_iff_eq] at hpred
    rw [← h]
    exact hpred.1


/-- Claim C1 (amended to scans in which no two matching entries share an
address): every scan entry whose advertised name passes the "Mira" test is
included in the discovery filter output with its original address/name
pairing, and every output pair comes from such a matching entry, so no
non-matching entry is ever included. -/
theorem filterCandidates_exact (scan : List ScanDevice)
    (hnd : ((scan.filter candMatch).map ScanDevice.address).Nodup) :
    (∀ d ∈ scan, candMatch d = true →
      (d.address, effName d) ∈ filterCandidates scan) ∧
    (∀ a n, (a, n) ∈ filterCandidates scan →
      ∃ d ∈ scan, candMatch d = true ∧ d.address = a ∧ effName d = n) := by
  constructor
  · intro d hd hmatch
    rw [mem_filterCandidates, lastMatchName]
    have hsome : (scan.reverse.find?
        (fun x => candMatch x && x.address == d.address)).isSome = true := by
      rw [List.find?_isSome]
      exact ⟨d, List.mem_reverse.mpr hd, by simp [hmatch]⟩
    obtain ⟨e, he⟩ := Option.isSome_iff_exists.mp hsome
    have hemem : e ∈ scan := List.mem_reverse.mp (List.mem_of_find?_eq_some he)
    have hepred := List.find?_some he
    simp only [Bool.and_eq_true, beq_iff_eq] at hepred
    have hed : e = d := by
      refine List.inj_on_of_nodup_map hnd ?_ ?_ hepred.2
      · exact List.mem_filter.mpr ⟨hemem, hepred.1⟩
      · exact List.mem_filter.mpr ⟨hd, hmatch⟩
    rw [he, Option.map_some', hed]
  · intro a n hmem
    rw [mem_filterCandidates, lastMatchName] at hmem
    cases hf : scan.reverse.find? (fun d => candMatch d && d.address == a) with
    | none => rw [hf] at hmem; cases hmem
    | some e =>
      rw [hf, Option.map_some'] at hmem
      injection hmem with hmem
      have hemem : e ∈ scan := List.mem_reverse.mp (List.mem_of_find?_eq_some hf)
      have hepred := List.find?_some hf
      simp only [Bool.and_eq_true, beq_iff_eq] at hepred
      exact ⟨e, hemem, hepred.1, hepred.2, hmem⟩

/-- Claim C1, counterexample to the unrestricted statement: in a scan with
two matching entries for the same address, the earlier matching entry is
dropped from the output, so not every matching entry keeps its
address/name pairing. -/
theorem filterCandidates_duplicate_address_cex :
    candMatch ⟨"AA:BB", some "Mira One"⟩ = true ∧
    (⟨"AA:BB", some "Mira One"⟩ : ScanDevice) ∈
      ([⟨"AA:BB", some "Mira One"⟩, ⟨"AA:BB", some "Mira Two"⟩] :
        List ScanDevice) ∧
    ("AA:BB", "Mira One") ∉
      filterCandidates [⟨"AA:BB", some "Mira One"⟩,
        ⟨"AA:BB", some "Mira Two"⟩] := by
  decide

/-- Claim C1, witness: scenario A from the spec, instantiating the amended
theorem. -/
theorem filterCandidates_exact_witness :
    ("AA:BB", "Mira Soak Station 1") ∈
      filterCandidates [⟨"AA:BB", some "Mira Soak Station 1"⟩,
        ⟨"CC:DD", some "Other Device"⟩] :=
  (filterCandidates_exact
      [⟨"AA:BB", some "Mira Soak Station 1"⟩, ⟨"CC:DD", some "Other Device"⟩]
      (by decide)).1
    ⟨"AA:BB", some "Mira Soak Station 1"⟩ (by decide) (by decide)

/-- Claim C2: a pairing attempt that returns without raising creates a
configuration entry whose data is exactly the four fields, with the
client id and slot taken verbatim from the pair the pairing routine
returned, the selected address, and the advertised name recorded for that
address. -/
theorem pairing_success_creates_entry {ε : Type} (st : FlowState)
    (scan : List ScanDevice) (device_address device_name client_id : String)
    (client_slot : Nat)
    (hname : lookupDict st.deviceOptions device_address = some device_name) :
    async_step_user st scan (some device_address)
        (Except.ok (client_id, client_slot) : Except ε (String × Nat)) =
      StepOutcome.done st
        (FlowResult.createEntry device_name
          ⟨device_name, device_address, client_id, client_slot⟩) := by
  simp only [async_step_user, hname]

/-- Claim C2, witness: the device grants slot 3 and confirms, so the
recorded client slot is 3. -/
theorem pairing_success_creates_entry_witness :
    async_step_user (⟨[("AA:BB", "Mira Soak Station 1")]⟩ : FlowState) []
        (some "AA:BB")
        (Except.ok ("token", 3) : Except Unit (String × Nat)) =
      StepOutcome.done ⟨[("AA:BB", "Mira Soak Station 1")]⟩
        (FlowResult.createEntry "Mira Soak Station 1"
          ⟨"Mira Soak Station 1", "AA:BB", "token", 3⟩) :=
  pairing_success_creates_entry ⟨[("AA:BB", "Mira Soak Station 1")]⟩ []
    "AA:BB" "Mira Soak Station 1" "token" 3 (by decide)

/-- Claim C3: a pairing attempt that raises any exception never creates a
configuration entry; the flow returns the selection form again with the
error signal "pairing_failed". -/
theorem pairing_failure_no_entry {ε : Type} (st : FlowState)
    (scan : List ScanDevice) (device_address device_name : String) (e : ε)
    (hname : lookupDict st.deviceOptions device_address = some device_name) :
    async_step_user st scan (some device_address) (Except.error e) =
        StepOutcome.done st
          (show_selection_form [("base", "pairing_failed")] []) ∧
      ∀ (st2 : FlowState) (t : String) (data : EntryData),
        async_step_user st scan (some device_address) (Except.error e) ≠
          StepOutcome.done st2 (FlowResult.createEntry t data) := by
  have h : async_step_user st scan (some device_address)
      (Except.error e : Except ε (String × Nat)) =
      StepOutcome.done st
        (show_selection_form [("base", "pairing_failed")] []) := by
    simp only [async_step_user, hname]
  refine ⟨h, ?_⟩
  intro st2 t data hne
  rw [h] at hne
  simp [show_selection_form] at hne

/-- Claim C3, witness: a concrete failed pairing re-shows the form with the
pairing_failed error. -/
theorem pairing_failure_no_entry_witness :
    async_step_user (⟨[("AA:BB", "Mira Soak Station 1")]⟩ : FlowState) []
        (some "AA:BB") (Except.error () : Except Unit (String × Nat)) =
      StepOutcome.done ⟨[("AA:BB", "Mira Soak Station 1")]⟩
        (show_selection_form [("base", "pairing_failed")] []) :=
  (pairing_failure_no_entry ⟨[("AA:BB", "Mira Soak Station 1")]⟩ []
    "AA:BB" "Mira Soak Station 1" () (by decide)).1

/-- Claim C4: when the filtered candidate set is empty the discovery step
aborts with reason "no_devices_found". -/
theorem no_candidates_aborts {ε : Type} (st : FlowState)
    (scan : List ScanDevice) (pairing : Except ε (String × Nat))
    (h : filterCandidates scan = []) :
    async_step_user st scan none pairing =
      StepOutcome.done st (FlowResult.abort "no_devices_found") := by
  simp [async_step_user, h]

/-- Claim C4, witness: the empty scan aborts with no_devices_found. -/
theorem no_candidates_aborts_witness :
    async_step_user (⟨[]⟩ : FlowState) [] none
        (Except.ok ("token", 0) : Except Unit (String × Nat)) =
      StepOutcome.done ⟨[]⟩ (FlowResult.abort "no_devices_found") :=
  no_candidates_aborts ⟨[]⟩ [] (Except.ok ("token", 0)) (by decide)

/-- Claim C5, counterexample: two distinct failure kinds of the pairing
routine produce identical flow results, so the failure kind is not
surfaced to the caller. -/
theorem pairing_failure_kinds_collapsed_cex :
    (0 : Nat) ≠ 1 ∧
      async_step_user (⟨[("AA:BB", "Mira Soak Station 1")]⟩ : FlowState) []
          (some "AA:BB") (Except.error 0 : Except Nat (String × Nat)) =
        async_step_user ⟨[("AA:BB", "Mira Soak Station 1")]⟩ []
          (some "AA:BB") (Except.error 1 : Except Nat (String × Nat)) := by
  exact ⟨by decide, by decide⟩

/-- Claim C5 (amended): the flow collapses every pairing failure kind into
the one generic "pairing_failed" signal; any two exceptions give the same
result, namely the re-shown form carrying that generic error. -/
theorem pairing_failures_all_generic {ε : Type} (st : FlowState)
    (scan : List ScanDevice) (device_address device_name : String)
    (e1 e2 : ε)
    (hname : lookupDict st.deviceOptions device_address = some device_name) :
    async_step_user st scan (some device_address) (Except.error e1) =
        async_step_user st scan (some device_address) (Except.error e2) ∧
      async_step_user st scan (some device_address) (Except.error e1) =
        StepOutcome.done st
          (show_selection_form [("base", "pairing_failed")] []) := by
  constructor
  · simp only [async_step_user, hname]
  · simp only [async_step_user, hname]

/-- Claim C5, witness for the amended theorem. -/
theorem pairing_failures_all_generic_witness :
    async_step_user (⟨[("AA:BB", "Mira Soak Station 1")]⟩ : FlowState) []
        (some "AA:BB") (Except.error 0 : Except Nat (String × Nat)) =
        async_step_user ⟨[("AA:BB", "Mira Soak Station 1")]⟩ []
          (some "AA:BB") (Except.error 1 : Except Nat (String × Nat)) ∧
      async_step_user (⟨[("AA:BB", "Mira Soak Station 1")]⟩ : FlowState) []
          (some "AA:BB") (Except.error 0 : Except Nat (String × Nat)) =
        StepOutcome.done ⟨[("AA:BB", "Mira Soak Station 1")]⟩
          (show_selection_form [("base", "pairing_failed")] []) :=
  pairing_failures_all_generic ⟨[("AA:BB", "Mira Soak Station 1")]⟩ []
    "AA:BB" "Mira Soak Station 1" 0 1 (by decide)

/-- Claim C6: the candidate name match is case-sensitive; a lowercase
"mira shower" is excluded while "Mira shower" is included. -/
theorem mira_match_case_sensitive :
    candMatch ⟨"AA:BB", some "mira shower"⟩ = false ∧
    candMatch ⟨"AA:BB", some "Mira shower"⟩ = true ∧
    filterCandidates [⟨"AA:BB", some "mira shower"⟩] = [] ∧
    filterCandidates [⟨"AA:BB", some "Mira shower"⟩] =
      [("AA:BB", "Mira shower")] := by
  decide

/-- Claim C7: once a pair call for an address has been admitted (reaching an
open Transport Session), a second pair call for the same address fails fast
with PairingInProgress and changes nothing. -/
theorem second_pair_call_rejected (s s1 : OrchestratorState) (addr : String)
    (h : pairBegin s addr = (s1, Except.ok ())) :
    pairBegin s1 addr =
      (s1, Except.error PairingError.PairingInProgress) := by
  simp only [pairBegin] at h
  split at h
  · exact absurd h (by simp)
  · injection h with h1 h2
    subst h1
    simp [pairBegin]

/-- Claim C7, witness: a first admitted call followed by a second call for
the same address, which is rejected. -/
theorem second_pair_call_rejected_witness :
    pairBegin ⟨["AA:BB"]⟩ "AA:BB" =
      (⟨["AA:BB"]⟩, Except.error PairingError.PairingInProgress) :=
  second_pair_call_rejected ⟨[]⟩ ⟨["AA:BB"]⟩ "AA:BB" (by rfl)

/-- Claim C8: a scan entry with an absent advertised name gets the
effective name "Unknown", fails the candidate test, and its pair never
appears in the candidate mapping. -/
theorem missing_name_never_candidate (scan : List ScanDevice)
    (d : ScanDevice) (hd : d.name = none) :
    effName d = "Unknown" ∧ candMatch d = false ∧
      (d.address, effName d) ∉ filterCandidates scan := by
  obtain ⟨a, nm⟩ := d
  have hnm : nm = none := hd
  subst hnm
  refine ⟨rfl, rfl, ?_⟩
  intro hmem
  have hc := mem_filterCandidates_matches scan a "Unknown" hmem
  exact absurd hc (by decide)

/-- Claim C8, witness: a concrete nameless scan entry. -/
theorem missing_name_never_candidate_witness :
    effName ⟨"AA:BB", none⟩ = "Unknown" ∧
      candMatch ⟨"AA:BB", none⟩ = false ∧
      ("AA:BB", "Unknown") ∉ filterCandidates [⟨"AA:BB", none⟩] :=
  missing_name_never_candidate [⟨"AA:BB", none⟩] ⟨"AA:BB", none⟩ rfl

/-- Claim C9: when pairing fails, the re-shown selection form is built from
the local mira_devices dict, which the selection invocation re-initialized
to empty, so its option set is empty even though the flow state still
holds the previously discovered devices. -/
theorem failure_form_empty_options {ε : Type} (st : FlowState)
    (scan : List ScanDevice) (device_address device_name : String) (e : ε)
    (hname : lookupDict st.deviceOptions device_address = some device_name) :
    ∃ (st2 : FlowState) (errs : List (String × String)),
      async_step_user st scan (some device_address) (Except.error e) =
          StepOutcome.done st2 (show_selection_form errs []) ∧
        st2.deviceOptions = st.deviceOptions ∧
        errs = [("base", "pairing_failed")] := by
  refine ⟨st, [("base", "pairing_failed")], ?_, rfl, rfl⟩
  simp only [async_step_user, hname]

/-- Claim C9, witness: the re-shown form after a concrete failure offers no
options while the state still stores the discovered device. -/
theorem failure_form_empty_options_witness :
    ∃ (st2 : FlowState) (errs : List (String × String)),
      async_step_user (⟨[("AA:BB", "Mira Soak Station 1")]⟩ : FlowState) []
          (some "AA:BB") (Except.error () : Except Unit (String × Nat)) =
          StepOutcome.done st2 (show_selection_form errs []) ∧
        st2.deviceOptions = [("AA:BB", "Mira Soak Station 1")] ∧
        errs = [("base", "pairing_failed")] :=
  failure_form_empty_options ⟨[("AA:BB", "Mira Soak Station 1")]⟩ []
    "AA:BB" "Mira Soak Station 1" () (by decide)

/-- Claim C10: the candidate mapping has no duplicate addresses, its value
for any address is the effective name of the last matching scan entry with
that address, and in particular a later matching entry overwrites an
earlier one with the same address. -/
theorem candidate_map_last_write_wins :
    (∀ scan : List ScanDevice,
      ((filterCandidates scan).map Prod.fst).Nodup) ∧
    (∀ (scan : List ScanDevice) (a : String),
      lookupDict (filterCandidates scan) a = lastMatchName scan a) ∧
    filterCandidates [⟨"AA:BB", some "Mira One"⟩,
        ⟨"AA:BB", some "Mira Two"⟩] =
      [("AA:BB", "Mira Two")] :=
  ⟨filterCandidates_keys_nodup, lookupDict_filterCandidates, by decide⟩
